import Mathlib

/-!
Verification of the motion_library asset-storage and thumbnail-derivation
subsystem.  The definitions below are a shallow embedding of the Python
sources:

* `backend/scripts/generate_thumbnails.py` - per-asset CLI pipeline
  (WebP output, 320x320, mirrored thumbnail layout);
* `scripts/generate_thumbnails.py` - batch pipeline (PNG/GIF output,
  160x160, flat thumbnail layout);
* `backend/main.py` - request layer (upload validation, model-file
  listing).

Machine integers are modelled as `Nat` reduced modulo `2 ^ 32` (MD5 word
arithmetic), byte strings as `List Nat` of values below 256, and Python
`None`-able parameters as `Option`.
-/

/-- 32-bit left rotation on a word already reduced modulo `2 ^ 32`:
the low and high parts are disjoint in bits, so `+` is bitwise or. -/
def rotl32 (x n : Nat) : Nat :=
  (x * 2 ^ n) % 4294967296 + x % 4294967296 / 2 ^ (32 - n)

/-- MD5 round function F: `(b and c) or ((not b) and d)`.  Complement of a
word below `2 ^ 32` is xor with the all-ones word. -/
def md5F (b c d : Nat) : Nat := (b &&& c) ||| ((4294967295 ^^^ b) &&& d)

/-- MD5 round function G: `(d and b) or ((not d) and c)`. -/
def md5G (b c d : Nat) : Nat := (d &&& b) ||| ((4294967295 ^^^ d) &&& c)

/-- MD5 round function H: `b xor c xor d`. -/
def md5H (b c d : Nat) : Nat := b ^^^ c ^^^ d

/-- MD5 round function I: `c xor (b or (not d))`. -/
def md5I (b c d : Nat) : Nat := c ^^^ (b ||| (4294967295 ^^^ d))

/-- The 64 MD5 sine-derived additive constants. -/
def md5K : List Nat :=
  [3614090360, 3905402710, 606105819, 3250441966, 4118548399, 1200080426,
   2821735955, 4249261313, 1770035416, 2336552879, 4294925233, 2304563134,
   1804603682, 4254626195, 2792965006, 1236535329, 4129170786, 3225465664,
   643717713, 3921069994, 3593408605, 38016083, 3634488961, 3889429448,
   568446438, 3275163606, 4107603335, 1163531501, 2850285829, 4243563512,
   1735328473, 2368359562, 4294588738, 2272392833, 1839030562, 4259657740,
   2763975236, 1272893353, 4139469664, 3200236656, 681279174, 3936430074,
   3572445317, 76029189, 3654602809, 3873151461, 530742520, 3299628645,
   4096336452, 1126891415, 2878612391, 4237533241, 1700485571, 2399980690,
   4293915773, 2240044497, 1873313359, 4264355552, 2734768916, 1309151649,
   4149444226, 3174756917, 718787259, 3951481745]

/-- The 64 MD5 per-round left-rotation amounts. -/
def md5S : List Nat :=
  [7, 12, 17, 22, 7, 12, 17, 22, 7, 12, 17, 22, 7, 12, 17, 22,
   5, 9, 14, 20, 5, 9, 14, 20, 5, 9, 14, 20, 5, 9, 14, 20,
   4, 11, 16, 23, 4, 11, 16, 23, 4, 11, 16, 23, 4, 11, 16, 23,
   6, 10, 15, 21, 6, 10, 15, 21, 6, 10, 15, 21, 6, 10, 15, 21]

/-- The four 32-bit words of MD5 running state. -/
structure MD5State where
  a : Nat
  b : Nat
  c : Nat
  d : Nat

/-- MD5 initialisation vector. -/
def md5Init : MD5State := ⟨0x67452301, 0xefcdab89, 0x98badcfe, 0x10325476⟩

/-- Little-endian decomposition of a word into `k` bytes. -/
def toLEBytes : Nat → Nat → List Nat
  | 0, _ => []
  | k + 1, w => w % 256 :: toLEBytes k (w / 256)

/-- The sixteen little-endian 32-bit message words of one 64-byte chunk. -/
def md5Words (chunk : List Nat) : List Nat :=
  (List.range 16).map fun j =>
    chunk.getD (4 * j) 0 + 256 * chunk.getD (4 * j + 1) 0 +
      65536 * chunk.getD (4 * j + 2) 0 + 16777216 * chunk.getD (4 * j + 3) 0

/-- One MD5 round `i` (0-63) over message words `M`. -/
def md5Round (M : List Nat) (st : MD5State) (i : Nat) : MD5State :=
  let f :=
    if i < 16 then md5F st.b st.c st.d
    else if i < 32 then md5G st.b st.c st.d
    else if i < 48 then md5H st.b st.c st.d
    else md5I st.b st.c st.d
  let g :=
    if i < 16 then i
    else if i < 32 then (5 * i + 1) % 16
    else if i < 48 then (3 * i + 5) % 16
    else (7 * i) % 16
  let tmp := (st.a + f + md5K.getD i 0 + M.getD g 0) % 4294967296
  let nb := (st.b + rotl32 tmp (md5S.getD i 0)) % 4294967296
  ⟨st.d, nb, st.b, st.c⟩

/-- MD5 compression of one 64-byte chunk into the running state. -/
def md5ProcessChunk (st : MD5State) (chunk : List Nat) : MD5State :=
  let M := md5Words chunk
  let r := (List.range 64).foldl (md5Round M) st
  ⟨(st.a + r.a) % 4294967296, (st.b + r.b) % 4294967296,
   (st.c + r.c) % 4294967296, (st.d + r.d) % 4294967296⟩

/-- Fold MD5 compression over a padded message, 64 bytes at a time. -/
def md5Chunks (st : MD5State) (l : List Nat) : MD5State :=
  match l with
  | [] => st
  | x :: xs => md5Chunks (md5ProcessChunk st ((x :: xs).take 64)) (xs.drop 63)
termination_by l.length
decreasing_by
  simp [List.length_drop]
  omega

/-- MD5 padding: append `0x80`, zero bytes up to 56 mod 64, then the
64-bit little-endian bit length. -/
def md5Pad (msg : List Nat) : List Nat :=
  msg ++ 128 :: List.replicate ((119 - msg.length % 64) % 64) 0 ++
    toLEBytes 8 (8 * msg.length % 18446744073709551616)

/-- The 16-byte MD5 digest of a byte string. -/
def md5Digest (msg : List Nat) : List Nat :=
  let st := md5Chunks md5Init (md5Pad msg)
  toLEBytes 4 st.a ++ toLEBytes 4 st.b ++ toLEBytes 4 st.c ++ toLEBytes 4 st.d

/-- Lowercase hexadecimal digit for a value below 16. -/
def hexDigitChar (n : Nat) : Char :=
  if n < 10 then Char.ofNat (48 + n) else Char.ofNat (87 + n)

/-- Two lowercase hex characters of one byte. -/
def byteToHex (b : Nat) : List Char := [hexDigitChar (b / 16), hexDigitChar (b % 16)]

/-- The 32-character lowercase hex digest, as `hashlib.md5(x).hexdigest()`. -/
def md5HexChars (msg : List Nat) : List Char :=
  ((md5Digest msg).map byteToHex).flatten

/-- UTF-8 encoding of one character (Python `str.encode()` per code point). -/
def utf8EncodeChar (c : Char) : List Nat :=
  let n := c.toNat
  if n < 128 then [n]
  else if n < 2048 then [192 + n / 64, 128 + n % 64]
  else if n < 65536 then [224 + n / 4096, 128 + n / 64 % 64, 128 + n % 64]
  else [240 + n / 262144, 128 + n / 4096 % 64, 128 + n / 64 % 64, 128 + n % 64]

/-- UTF-8 bytes of a string, as Python `s.encode()`. -/
def utf8Encode (s : String) : List Nat :=
  (s.data.map utf8EncodeChar).flatten

/-- `ThumbnailGenerator.get_file_id` of `backend/scripts/generate_thumbnails.py`:
`hashlib.md5(relative_path.encode()).hexdigest()[:16]`.  Total over every
string; no normalisation of the relative path is performed. -/
def backend_get_file_id (relative_path : String) : String :=
  String.mk ((md5HexChars (utf8Encode relative_path)).take 16)

/-- `ThumbnailGenerator.get_file_id` of `scripts/generate_thumbnails.py`:
`hashlib.md5(str(file_path).encode()).hexdigest()[:16]`.  `str` of a
`pathlib` path is the identity on a canonical forward-slash relative path
string, so the argument is modelled as that string. -/
def scripts_get_file_id (file_path : String) : String :=
  String.mk ((md5HexChars (utf8Encode file_path)).take 16)

/-- Number of frames sampled per trajectory animation (both scripts). -/
def TRAJECTORY_FRAMES : Nat := 30

/-- Exact-arithmetic model of
`np.linspace(0, total_frames - 1, TRAJECTORY_FRAMES, dtype=int)` for
`total_frames >= 1` (both scripts): sample `i` sits at real position
`(total_frames - 1) * i / 29`, and the integer cast truncates, which on
these non-negative values is the floor. -/
def frame_indices (total_frames : Nat) : List Nat :=
  (List.range TRAJECTORY_FRAMES).map fun i => (total_frames - 1) * i / 29

/-- Python `str.endswith` on one suffix. -/
def py_endswith (s suf : String) : Bool := suf.data.isSuffixOf s.data

/-- Outcome of a request handler in `backend/main.py`: an OK payload, an
HTTP 400 `HTTPException` (bad input), or an HTTP 500 one (store failure). -/
inductive ApiResult (α : Type) where
  | ok : α → ApiResult α
  | badRequest : String → ApiResult α
  | serverError : String → ApiResult α
deriving DecidableEq

/-- `upload_trajectory` of `backend/main.py`: reject any filename not
ending in `.npy` or `.npz` with HTTP 400 before touching the store; then
hand the bytes to `storage.save_trajectory`, whose result is modelled by
the `save_trajectory` argument (`storage.py` is an external collaborator
here), mapping its exceptions to HTTP 500. -/
def upload_trajectory {α : Type} (filename : String) (save_trajectory : Except String α) :
    ApiResult α :=
  if !(py_endswith filename ".npy" || py_endswith filename ".npz") then
    .badRequest "Only .npy and .npz files are supported"
  else
    match save_trajectory with
    | .ok t => .ok t
    | .error e => .serverError ("Failed to upload trajectory: " ++ e)

/-- `upload_model` of `backend/main.py`: reject any filename not ending
in `.xml` with HTTP 400 before touching the store; then hand the bytes to
`storage.save_model`, modelled by the `save_model` argument. -/
def upload_model {α : Type} (filename : String) (save_model : Except String α) :
    ApiResult α :=
  if !py_endswith filename ".xml" then
    .badRequest "Only .xml files are supported"
  else
    match save_model with
    | .ok m => .ok m
    | .error e => .serverError ("Failed to upload model: " ++ e)

/-- Forward-slash join of path components, the canonical relative-path
string fed to `get_file_id`. -/
def joined (components : List String) : String := String.intercalate "/" components

/-- Thumbnail location written by `render_model` of
`backend/scripts/generate_thumbnails.py`, as path components below the
data directory: `thumbnails/models/<rel parent>/<id>.webp`
(`rel.dropLast` is `Path(...).parent`; `pathlib` drops the `.` parent of
a top-level file when joining). -/
def backend_model_thumbnail_path (rel : List String) : List String :=
  ["thumbnails", "models"] ++ rel.dropLast ++
    [backend_get_file_id (joined rel) ++ ".webp"]

/-- Thumbnail location written by `render_trajectory` of
`backend/scripts/generate_thumbnails.py`:
`thumbnails/trajectories/<rel parent>/<id>.webp`. -/
def backend_trajectory_thumbnail_path (rel : List String) : List String :=
  ["thumbnails", "trajectories"] ++ rel.dropLast ++
    [backend_get_file_id (joined rel) ++ ".webp"]

/-- Thumbnail location written by `generate_model_thumbnail` of
`scripts/generate_thumbnails.py`: `thumbnails/models/<id>.png`, with no
subdirectory component. -/
def scripts_model_thumbnail_path (rel : List String) : List String :=
  ["thumbnails", "models", scripts_get_file_id (joined rel) ++ ".png"]

/-- Thumbnail location written by `generate_trajectory_gif` of
`scripts/generate_thumbnails.py`: `thumbnails/trajectories/<id>.gif`,
with no subdirectory component. -/
def scripts_trajectory_thumbnail_path (rel : List String) : List String :=
  ["thumbnails", "trajectories", scripts_get_file_id (joined rel) ++ ".gif"]

/-- Modelled from the spec: the Thumbnail Cache layout of section 4.3,
"a thumbnail for `category/sub/dir/asset` lives at
`cache_root/category/sub/dir/<identifier>.<ext>`".  Stated over path
components below the cache root; `ext` carries its dot. -/
def spec_mirrored_thumbnail_path (category : String) (rel : List String)
    (ident ext : String) : List String :=
  ["thumbnails", category] ++ rel.dropLast ++ [ident ++ ext]

/-- Camera configuration ultimately passed to `renderer.update_scene` by
`render_with_camera` of `backend/scripts/generate_thumbnails.py`: either a
camera id resolved from the XML by name, or the programmatic
`mujoco.MjvCamera` with its four parameters. -/
inductive UsedCamera where
  | xmlCamera (cam_id : Nat)
  | custom (distance azimuth elevation : ℚ) (lookat : ℚ × ℚ × ℚ)
deriving DecidableEq

/-- `DEFAULT_CAMERA_DISTANCE` of `backend/scripts/generate_thumbnails.py`. -/
def DEFAULT_CAMERA_DISTANCE : ℚ := 3

/-- `DEFAULT_CAMERA_AZIMUTH` of `backend/scripts/generate_thumbnails.py`. -/
def DEFAULT_CAMERA_AZIMUTH : ℚ := 45

/-- `DEFAULT_CAMERA_ELEVATION` of `backend/scripts/generate_thumbnails.py`. -/
def DEFAULT_CAMERA_ELEVATION : ℚ := -20

/-- `DEFAULT_CAMERA_LOOKAT` of `backend/scripts/generate_thumbnails.py`. -/
def DEFAULT_CAMERA_LOOKAT : ℚ × ℚ × ℚ := (0, 0, 1)

/-- `render_with_camera` of `backend/scripts/generate_thumbnails.py`,
returning the camera configuration with which `renderer.render()` is
invoked (a frame is always produced: the function is total).  The model's
named cameras are the association list `model_cameras`; a failed name
lookup is the caught `KeyError`, after which `camera_name` is cleared and
the programmatic branch runs.  `x if x is not None else DEFAULT` is
`Option.getD`. -/
def render_with_camera (model_cameras : List (String × Nat))
    (camera_name : Option String) (distance azimuth elevation : Option ℚ)
    (lookat : Option (ℚ × ℚ × ℚ)) : UsedCamera :=
  let custom : UsedCamera :=
    .custom (distance.getD DEFAULT_CAMERA_DISTANCE)
      (azimuth.getD DEFAULT_CAMERA_AZIMUTH)
      (elevation.getD DEFAULT_CAMERA_ELEVATION)
      (lookat.getD DEFAULT_CAMERA_LOOKAT)
  match camera_name with
  | some name =>
    match List.lookup name model_cameras with
    | some cam_id => .xmlCamera cam_id
    | none => custom
  | none => custom

/-- `render_trajectory` of `backend/scripts/generate_thumbnails.py` as a
boolean outcome: `False` when the model path is missing or not `.xml`
(checked before the `try` block), `False` when any step inside the `try`
block raises (the `except` arm absorbs it), `True` otherwise.  The body's
outcome is abstracted as the `body` argument. -/
def render_trajectory_result (model_exists model_is_xml : Bool)
    (body : Except String Unit) : Bool :=
  if !model_exists then false
  else if !model_is_xml then false
  else
    match body with
    | .ok _ => true
    | .error _ => false

/-- `render_trajectories_in_folder` of
`backend/scripts/generate_thumbnails.py`: guard clauses return `(0, 0)`;
otherwise loop over every matched file, counting the `True` results of
`render_trajectory`, and return `(success_count, total_count)`.  Each
list element is the body outcome of one file's render. -/
def render_trajectories_in_folder (folder_exists folder_is_dir : Bool)
    (model_exists model_is_xml : Bool) (files : List (Except String Unit)) :
    Nat × Nat :=
  if !folder_exists then (0, 0)
  else if !folder_is_dir then (0, 0)
  else if files.isEmpty then (0, 0)
  else
    (files.foldl
      (fun acc r => if render_trajectory_result model_exists model_is_xml r then acc + 1 else acc)
      0,
     files.length)

/-- Parameters of the animation-encoder call that stores a trajectory
thumbnail: container format, loop count, per-frame duration (ms),
optional quality and compression-method levels (absent when the encoder
call does not pass them), number of frames handed over, and render
resolution. -/
structure AnimationEncoding where
  format : String
  loop : Nat
  duration : Nat
  quality : Option Nat
  method : Option Nat
  frame_count : Nat
  width : Nat
  height : Nat
deriving DecidableEq

/-- The `PIL` save call of `render_trajectory` in
`backend/scripts/generate_thumbnails.py`: animated WebP,
`duration=ANIMATION_DURATION` (100), `loop=0`, `quality=85`, `method=6`,
one frame per sampled index, at `THUMBNAIL_SIZE = (320, 320)`. -/
def backend_trajectory_encoding (total_frames : Nat) : AnimationEncoding :=
  { format := "WEBP", loop := 0, duration := 100, quality := some 85,
    method := some 6, frame_count := (frame_indices total_frames).length,
    width := 320, height := 320 }

/-- The `imageio.mimsave` call of `generate_trajectory_gif` in
`scripts/generate_thumbnails.py`: GIF, `duration=GIF_DURATION` (100),
`loop=0`, no quality or method parameter, one frame per sampled index, at
`THUMBNAIL_SIZE = (160, 160)`. -/
def scripts_trajectory_encoding (total_frames : Nat) : AnimationEncoding :=
  { format := "GIF", loop := 0, duration := 100, quality := none,
    method := none, frame_count := (frame_indices total_frames).length,
    width := 160, height := 160 }

/-- Result of `np.load` on a trajectory file: a bare array (NPY) or a
named-array container (NPZ), with arrays abstracted to type `α`. -/
inductive TrajectoryData (α : Type) where
  | npyFile (arr : α)
  | npzFile (arrays : List (String × α))

/-- Pose-sequence extraction in `render_trajectory` of
`backend/scripts/generate_thumbnails.py`: an NPZ container is indexed
with key `qpos_traj` (a missing key raises, caught by the enclosing
`except` arm), an NPY array is used whole. -/
def backend_extract_qpos {α : Type} : TrajectoryData α → Except String α
  | .npyFile a => .ok a
  | .npzFile arrays =>
    match List.lookup "qpos_traj" arrays with
    | some a => .ok a
    | none => .error "KeyError: qpos_traj"

/-- Pose-sequence extraction in `generate_trajectory_gif` of
`scripts/generate_thumbnails.py`: an NPZ container is indexed with key
`qpos`, an NPY array is used whole. -/
def scripts_extract_qpos {α : Type} : TrajectoryData α → Except String α
  | .npyFile a => .ok a
  | .npzFile arrays =>
    match List.lookup "qpos" arrays with
    | some a => .ok a
    | none => .error "KeyError: qpos"

/-- Python truthiness test `not files` of `list_model_files` in
`backend/main.py`, over a store result that is either absent (`None`) or
a list of file paths: true on `None` and on the empty list. -/
def py_not_files : Option (List String) → Bool
  | none => true
  | some fs => fs.isEmpty

/-- `list_model_files` of `backend/main.py`: fetch the store's file list
for the identifier (the `files` argument models
`storage.get_model_directory_files(model_id)`, absent when the identifier
resolves to no model per the store contract of spec section 4.2), answer
HTTP 404 "Model not found" whenever `not files`, else the list. -/
def list_model_files (files : Option (List String)) : Except Nat (List String) :=
  if py_not_files files then .error 404 else .ok (files.getD [])

/-! ## Helper lemmas -/

theorem length_toLEBytes : ∀ (k w : Nat), (toLEBytes k w).length = k
  | 0, _ => rfl
  | k + 1, w => by simp [toLEBytes, length_toLEBytes k]

theorem length_md5Digest (msg : List Nat) : (md5Digest msg).length = 16 := by
  simp [md5Digest, length_toLEBytes]

theorem length_hex_flatten : ∀ l : List Nat, ((l.map byteToHex).flatten).length = 2 * l.length
  | [] => rfl
  | b :: bs => by
    simp [byteToHex, length_hex_flatten bs]
    omega

theorem length_md5HexChars (msg : List Nat) : (md5HexChars msg).length = 32 := by
  rw [md5HexChars, length_hex_flatten, length_md5Digest]

theorem frame_indices_getD (n i : Nat) (h : i < TRAJECTORY_FRAMES) :
    (frame_indices n).getD i 0 = (n - 1) * i / 29 := by
  have hlen : i < ((List.range TRAJECTORY_FRAMES).map
      fun i => (n - 1) * i / 29).length := by
    simpa using h
  rw [frame_indices, List.getD_eq_getElem _ _ hlen, List.getElem_map,
    List.getElem_range]

theorem frame_indices_le (n : Nat) (i : Nat) (h : i ≤ 29) :
    (n - 1) * i / 29 ≤ n - 1 := by
  have h1 : (n - 1) * i ≤ (n - 1) * 29 := Nat.mul_le_mul_left _ h
  have h2 : (n - 1) * i / 29 ≤ (n - 1) * 29 / 29 := Nat.div_le_div_right h1
  simpa [Nat.mul_div_cancel _ (by norm_num : 0 < 29)] using h2

theorem foldl_count_render (me mx : Bool) :
    ∀ (l : List (Except String Unit)) (acc : Nat),
      l.foldl
        (fun a r => if render_trajectory_result me mx r then a + 1 else a) acc =
        acc + l.countP (render_trajectory_result me mx)
  | [], _ => by simp
  | r :: rs, acc => by
    simp only [List.foldl_cons, List.countP_cons, foldl_count_render me mx rs]
    cases h : render_trajectory_result me mx r <;> · simp [h]; try omega

/-! ## Claim theorems -/

/-- C1: the identifier function is total (a total function over every
string, defined with no failure path) and deterministic; for every
relative-path string `p` it returns a fixed-length string of 16 hex
characters (the MD5 digest of the UTF-8 bytes of `p`, truncated), and the
two pipeline implementations return the same value on the same `p`. -/
theorem identifier_total_fixed_length_deterministic (p q : String) :
    (backend_get_file_id p).length = 16 ∧
    backend_get_file_id p = scripts_get_file_id p ∧
    (p = q → backend_get_file_id p = scripts_get_file_id q) := by
  refine ⟨?_, rfl, fun h => by subst h; exact rfl⟩
  have h32 : (md5HexChars (utf8Encode p)).length = 32 := length_md5HexChars _
  simp [backend_get_file_id, String.length, h32]

/-- Witness for C1 at the concrete relative path `locomotion/walk.npy`. -/
theorem identifier_fixed_length_witness :
    (backend_get_file_id "locomotion/walk.npy").length = 16 ∧
    backend_get_file_id "locomotion/walk.npy" =
      scripts_get_file_id "locomotion/walk.npy" :=
  ⟨(identifier_total_fixed_length_deterministic "locomotion/walk.npy"
      "locomotion/walk.npy").1,
   (identifier_total_fixed_length_deterministic "locomotion/walk.npy"
      "locomotion/walk.npy").2.1⟩

/-- C3 counterexample: under trajectories, `save("x.xml", ...)` does NOT
succeed - `upload_trajectory` rejects it with the HTTP 400 bad-input
outcome, because `.xml` is not among the trajectory extensions
`.npy`/`.npz`. -/
theorem upload_xml_under_trajectories_rejected :
    upload_trajectory "x.xml" (Except.ok (0 : Nat)) =
      ApiResult.badRequest "Only .npy and .npz files are supported" := by
  decide

/-- C3 amended: upload rejects any filename whose extension is not in the
category's recognized set with a bad-input outcome, independently of the
store (so before any filesystem mutation and before the store's save
runs): under trajectories `.npy`/`.npz` are accepted and anything else -
including `x.txt` and `x.xml` - is rejected; under models only `.xml` is
accepted. -/
theorem upload_extension_validation (α : Type) (filename : String)
    (s₁ s₂ : Except String α) (t : α) :
    (py_endswith filename ".npy" = false → py_endswith filename ".npz" = false →
      upload_trajectory filename s₁ =
        ApiResult.badRequest "Only .npy and .npz files are supported" ∧
      upload_trajectory filename s₁ = upload_trajectory filename s₂) ∧
    ((py_endswith filename ".npy" = true ∨ py_endswith filename ".npz" = true) →
      upload_trajectory filename (Except.ok t) = ApiResult.ok t) ∧
    (py_endswith filename ".xml" = false →
      upload_model filename s₁ =
        ApiResult.badRequest "Only .xml files are supported" ∧
      upload_model filename s₁ = upload_model filename s₂) ∧
    (py_endswith filename ".xml" = true →
      upload_model filename (Except.ok t) = ApiResult.ok t) := by
  refine ⟨fun h1 h2 => ?_, fun h => ?_, fun h => ?_, fun h => ?_⟩
  · constructor <;> simp [upload_trajectory, h1, h2]
  · rcases h with h | h <;> simp [upload_trajectory, h]
  · constructor <;> simp [upload_model, h]
  · simp [upload_model, h]

/-- Witness for C3 (amended) at concrete filenames. -/
theorem upload_extension_validation_witness :
    upload_trajectory "x.npy" (Except.ok (7 : Nat)) = ApiResult.ok 7 ∧
    upload_model "m.xml" (Except.ok (7 : Nat)) = ApiResult.ok 7 ∧
    upload_trajectory "x.txt" (Except.ok (7 : Nat)) =
      ApiResult.badRequest "Only .npy and .npz files are supported" :=
  ⟨(upload_extension_validation Nat "x.npy" (Except.ok 7) (Except.ok 7) 7).2.1
      (Or.inl (by decide)),
   (upload_extension_validation Nat "m.xml" (Except.ok 7) (Except.ok 7) 7).2.2.2
      (by decide),
   ((upload_extension_validation Nat "x.txt" (Except.ok 7) (Except.ok 7) 7).1
      (by decide) (by decide)).1⟩

/-- C4: batch-folder rendering is failure-tolerant.  For an existing
folder holding `k` matched trajectory files of which `s` render
successfully, the batch call processes every file, absorbs each per-file
failure (the embedding is a total function: `render_trajectory`'s
`except` arm turns every body failure into `False`), and returns the pair
`(s, k)` - in particular `(4, 5)` when exactly one of five files is
malformed. -/
theorem batch_folder_failure_tolerant (model_exists model_is_xml : Bool)
    (files : List (Except String Unit)) :
    render_trajectories_in_folder true true model_exists model_is_xml files =
      (files.countP (render_trajectory_result model_exists model_is_xml),
       files.length) ∧
    render_trajectories_in_folder true true true true
      [Except.ok (), Except.ok (), Except.error "malformed",
       Except.ok (), Except.ok ()] = (4, 5) := by
  constructor
  · by_cases hf : files.isEmpty
    · rw [List.isEmpty_iff.mp hf]
      simp [render_trajectories_in_folder]
    · simp [render_trajectories_in_folder, hf, foldl_count_render]
  · decide

/-- C5 counterexample: in the `scripts/generate_thumbnails.py` pipeline
the thumbnail for the trajectory `locomotion/walk.npy` is written flat
under the cache root, not at the spec's mirrored location
`cache_root/trajectories/locomotion/<identifier>.gif` (the paths differ
already in component count). -/
theorem scripts_thumbnail_path_not_mirrored :
    scripts_trajectory_thumbnail_path ["locomotion", "walk.npy"] ≠
      spec_mirrored_thumbnail_path "trajectories" ["locomotion", "walk.npy"]
        (scripts_get_file_id (joined ["locomotion", "walk.npy"])) ".gif" := by
  intro h
  have hlen := congrArg List.length h
  simp [scripts_trajectory_thumbnail_path, spec_mirrored_thumbnail_path] at hlen

/-- C5 amended: the backend pipeline stores thumbnails at the mirrored
location `cache_root/category/sub/dir/<identifier>.<ext>` for both
categories; the `scripts/` pipeline instead stores them flat at
`cache_root/category/<identifier>.<ext>`, dropping the asset's relative
directory. -/
theorem thumbnail_path_layout (rel : List String) :
    backend_model_thumbnail_path rel =
      spec_mirrored_thumbnail_path "models" rel
        (backend_get_file_id (joined rel)) ".webp" ∧
    backend_trajectory_thumbnail_path rel =
      spec_mirrored_thumbnail_path "trajectories" rel
        (backend_get_file_id (joined rel)) ".webp" ∧
    scripts_model_thumbnail_path rel =
      ["thumbnails", "models", scripts_get_file_id (joined rel) ++ ".png"] ∧
    scripts_trajectory_thumbnail_path rel =
      ["thumbnails", "trajectories", scripts_get_file_id (joined rel) ++ ".gif"] :=
  ⟨rfl, rfl, rfl, rfl⟩

/-- A list of the shape `l ++ [a]` has last element `a`. -/
theorem getLast?_append_singleton {α : Type} :
    ∀ (l : List α) (a : α), (l ++ [a]).getLast? = some a
  | [], _ => rfl
  | x :: xs, a => by
    rw [List.cons_append, List.getLast?_cons, getLast?_append_singleton xs a]
    rfl

/-- C2: for every trajectory with `n ≥ 1` frames, the sampled index list
has exactly 30 entries placed at evenly spaced interpolated positions
`(n - 1) * i / 29`; the first is 0, the last is `n - 1`, the list is
non-decreasing, every entry lies in `[0, n - 1]`, and for `n < 30` the 30
entries necessarily repeat an index. -/
theorem frame_sampling_even_thirty (n : Nat) (h : 1 ≤ n) :
    (frame_indices n).length = 30 ∧
    (frame_indices n).getD 0 0 = 0 ∧
    (frame_indices n).getD 29 0 = n - 1 ∧
    List.Pairwise (· ≤ ·) (frame_indices n) ∧
    (∀ x ∈ frame_indices n, x ≤ n - 1) ∧
    (n < 30 → ∃ i j, i < j ∧ j < 30 ∧
      (frame_indices n).getD i 0 = (frame_indices n).getD j 0) := by
  refine ⟨?_, ?_, ?_, ?_, ?_, ?_⟩
  · simp [frame_indices, TRAJECTORY_FRAMES]
  · rw [frame_indices_getD n 0 (by norm_num [TRAJECTORY_FRAMES])]
    simp
  · rw [frame_indices_getD n 29 (by norm_num [TRAJECTORY_FRAMES])]
    exact Nat.mul_div_cancel _ (by norm_num)
  · rw [frame_indices, List.pairwise_map]
    exact (List.pairwise_lt_range _).imp fun hab =>
      Nat.div_le_div_right (Nat.mul_le_mul_left _ (Nat.le_of_lt hab))
  · intro x hx
    rw [frame_indices] at hx
    obtain ⟨i, hi, rfl⟩ := List.mem_map.mp hx
    exact frame_indices_le n i (by
      have := List.mem_range.mp hi
      simp [TRAJECTORY_FRAMES] at this
      omega)
  · intro hn
    have hmaps : ∀ a : Fin 30, (n - 1) * a.val / 29 ∈ Finset.range n := by
      intro a
      refine Finset.mem_range.mpr ?_
      have h1 : (n - 1) * a.val / 29 ≤ n - 1 := frame_indices_le n a.val (by omega)
      omega
    obtain ⟨x, -, y, -, hxy, hfxy⟩ :=
      Finset.exists_ne_map_eq_of_card_lt_of_maps_to
        (s := (Finset.univ : Finset (Fin 30))) (t := Finset.range n)
        (f := fun a : Fin 30 => (n - 1) * a.val / 29)
        (by simp [Finset.card_range]; omega) (fun a _ => hmaps a)
    have hv : x.val ≠ y.val := fun hv => hxy (Fin.ext hv)
    rcases Nat.lt_or_gt_of_ne hv with hlt | hlt
    · refine ⟨x.val, y.val, hlt, y.isLt, ?_⟩
      rw [frame_indices_getD n x.val x.isLt, frame_indices_getD n y.val y.isLt]
      simpa using hfxy
    · refine ⟨y.val, x.val, hlt, x.isLt, ?_⟩
      rw [frame_indices_getD n y.val y.isLt, frame_indices_getD n x.val x.isLt]
      simpa using hfxy.symm

/-- Witness for C2 at the 5-frame trajectory of the spec's example. -/
theorem frame_sampling_even_thirty_witness :
    (1 ≤ 5) ∧
    ((frame_indices 5).length = 30 ∧
     (frame_indices 5).getD 0 0 = 0 ∧
     (frame_indices 5).getD 29 0 = 5 - 1 ∧
     List.Pairwise (· ≤ ·) (frame_indices 5) ∧
     (∀ x ∈ frame_indices 5, x ≤ 5 - 1) ∧
     (5 < 30 → ∃ i j, i < j ∧ j < 30 ∧
       (frame_indices 5).getD i 0 = (frame_indices 5).getD j 0)) :=
  ⟨by decide, frame_sampling_even_thirty 5 (by decide)⟩

/-- C6: when a named camera is requested but absent from the model, the
lookup's `KeyError` is caught, the render call behaves exactly as if no
camera name had been given, and a frame is still produced with the
programmatic (custom-parameter) camera. -/
theorem camera_fallback_on_missing_name (model_cameras : List (String × Nat))
    (name : String) (distance azimuth elevation : Option ℚ)
    (lookat : Option (ℚ × ℚ × ℚ))
    (h : List.lookup name model_cameras = none) :
    render_with_camera model_cameras (some name) distance azimuth elevation lookat =
      render_with_camera model_cameras none distance azimuth elevation lookat ∧
    ∃ d a e l,
      render_with_camera model_cameras (some name) distance azimuth elevation lookat =
        UsedCamera.custom d a e l := by
  refine ⟨by simp [render_with_camera, h], ?_⟩
  exact ⟨distance.getD DEFAULT_CAMERA_DISTANCE, azimuth.getD DEFAULT_CAMERA_AZIMUTH,
    elevation.getD DEFAULT_CAMERA_ELEVATION, lookat.getD DEFAULT_CAMERA_LOOKAT,
    by simp [render_with_camera, h]⟩

/-- Witness for C6: camera `cam1` requested against a model whose only
named camera is `main`. -/
theorem camera_fallback_witness :
    render_with_camera [("main", 0)] (some "cam1") none none none none =
      render_with_camera [("main", 0)] none none none none none ∧
    ∃ d a e l, render_with_camera [("main", 0)] (some "cam1") none none none none =
      UsedCamera.custom d a e l :=
  camera_fallback_on_missing_name [("main", 0)] "cam1" none none none none (by decide)

/-- C7 counterexample: the GIF (batch `scripts/`) trajectory encoder call
passes no quality parameter at all, so trajectory animations are not all
encoded at quality level 85 - `imageio.mimsave` receives only duration
and loop. -/
theorem scripts_gif_encoding_lacks_quality :
    (scripts_trajectory_encoding 100).quality ≠ some 85 := by
  decide

/-- C7 amended: trajectory animations loop infinitely at 100 ms per frame
with exactly 30 frames and are stored under the trajectory's identifier
in both pipelines; quality level 85 with maximum compression effort
(method 6) and the 320x320 resolution belong to the backend WebP
pipeline, while the batch GIF pipeline uses 160x160 and passes no
quality/effort parameters (the GIF encoder call has none). -/
theorem trajectory_encoding_parameters (n : Nat) (rel : List String) :
    backend_trajectory_encoding n =
      ⟨"WEBP", 0, 100, some 85, some 6, 30, 320, 320⟩ ∧
    scripts_trajectory_encoding n =
      ⟨"GIF", 0, 100, none, none, 30, 160, 160⟩ ∧
    (backend_trajectory_thumbnail_path rel).getLast? =
      some (backend_get_file_id (joined rel) ++ ".webp") ∧
    (scripts_trajectory_thumbnail_path rel).getLast? =
      some (scripts_get_file_id (joined rel) ++ ".gif") := by
  refine ⟨?_, ?_, ?_, rfl⟩
  · simp [backend_trajectory_encoding, frame_indices, TRAJECTORY_FRAMES]
  · simp [scripts_trajectory_encoding, frame_indices, TRAJECTORY_FRAMES]
  · rw [backend_trajectory_thumbnail_path, getLast?_append_singleton]

/-- C8 counterexample: on an NPZ container whose only named array is
`qpos`, the `scripts/` pipeline extracts it but the backend pipeline
raises a `KeyError` looking for `qpos_traj` - the two implementations do
not select the same named array. -/
theorem extract_qpos_field_mismatch :
    backend_extract_qpos (TrajectoryData.npzFile [("qpos", (7 : Nat))]) =
      Except.error "KeyError: qpos_traj" ∧
    scripts_extract_qpos (TrajectoryData.npzFile [("qpos", (7 : Nat))]) =
      Except.ok 7 ∧
    backend_extract_qpos (TrajectoryData.npzFile [("qpos", (7 : Nat))]) ≠
      scripts_extract_qpos (TrajectoryData.npzFile [("qpos", (7 : Nat))]) := by
  refine ⟨rfl, rfl, fun h => ?_⟩
  simp [backend_extract_qpos, scripts_extract_qpos, List.lookup] at h

/-- C8 amended: both pipelines use a bare NPY array whole, but on NPZ
containers they extract different designated fields - the backend reads
the named array `qpos_traj` (failing when it is absent) while the
`scripts/` pipeline reads `qpos`; they therefore agree on single-array
inputs but not, in general, on multi-array containers. -/
theorem extract_qpos_fields (α : Type) (a : α) (arrays : List (String × α)) (v : α) :
    (backend_extract_qpos (TrajectoryData.npyFile a) = Except.ok a ∧
     scripts_extract_qpos (TrajectoryData.npyFile a) = Except.ok a) ∧
    (List.lookup "qpos_traj" arrays = some v →
      backend_extract_qpos (TrajectoryData.npzFile arrays) = Except.ok v) ∧
    (List.lookup "qpos" arrays = some v →
      scripts_extract_qpos (TrajectoryData.npzFile arrays) = Except.ok v) ∧
    (List.lookup "qpos_traj" arrays = none →
      backend_extract_qpos (TrajectoryData.npzFile arrays) =
        Except.error "KeyError: qpos_traj") ∧
    (List.lookup "qpos" arrays = none →
      scripts_extract_qpos (TrajectoryData.npzFile arrays) =
        Except.error "KeyError: qpos") := by
  refine ⟨⟨rfl, rfl⟩, fun h => ?_, fun h => ?_, fun h => ?_, fun h => ?_⟩ <;>
    simp [backend_extract_qpos, scripts_extract_qpos, h]

/-- Witness for C8 (amended) on concrete one-entry containers. -/
theorem extract_qpos_fields_witness :
    scripts_extract_qpos (TrajectoryData.npzFile [("qpos", (9 : Nat))]) =
      Except.ok 9 ∧
    backend_extract_qpos (TrajectoryData.npzFile [("qpos_traj", (9 : Nat))]) =
      Except.ok 9 :=
  ⟨(extract_qpos_fields Nat 9 [("qpos", 9)] 9).2.2.1 (by decide),
   (extract_qpos_fields Nat 9 [("qpos_traj", 9)] 9).2.1 (by decide)⟩

/-- C9: with no named camera, the programmatic camera defaults to
distance 3.0, azimuth 45, elevation -20 and look-at (0, 0, 1); each of
the four parameters defaults independently exactly when the caller
leaves it unspecified, and a supplied value overrides its default. -/
theorem camera_programmatic_defaults (model_cameras : List (String × Nat)) :
    render_with_camera model_cameras none none none none none =
      UsedCamera.custom 3 45 (-20) (0, 0, 1) ∧
    (∀ d : ℚ, render_with_camera model_cameras none (some d) none none none =
      UsedCamera.custom d 45 (-20) (0, 0, 1)) ∧
    (∀ a : ℚ, render_with_camera model_cameras none none (some a) none none =
      UsedCamera.custom 3 a (-20) (0, 0, 1)) ∧
    (∀ e : ℚ, render_with_camera model_cameras none none none (some e) none =
      UsedCamera.custom 3 45 e (0, 0, 1)) ∧
    (∀ l : ℚ × ℚ × ℚ, render_with_camera model_cameras none none none none (some l) =
      UsedCamera.custom 3 45 (-20) l) ∧
    (∀ d a e l, render_with_camera model_cameras none (some d) (some a) (some e) (some l) =
      UsedCamera.custom d a e l) :=
  ⟨rfl, fun _ => rfl, fun _ => rfl, fun _ => rfl, fun _ => rfl,
   fun _ _ _ _ => rfl⟩

/-- C10: the model-directory-listing endpoint answers the same 404
"not found" outcome when the store resolves no model (`None`) and when
an existing model's directory yields an empty file list, so the two are
indistinguishable to the caller; a non-empty list is returned as-is. -/
theorem list_model_files_conflates_empty_and_missing :
    list_model_files none = Except.error 404 ∧
    list_model_files (some []) = Except.error 404 ∧
    list_model_files none = list_model_files (some []) ∧
    ∀ fs : List String, fs ≠ [] → list_model_files (some fs) = Except.ok fs := by
  refine ⟨rfl, rfl, rfl, ?_⟩
  intro fs h
  cases fs with
  | nil => exact absurd rfl h
  | cons x xs => rfl

/-- Witness for C10's non-empty branch at a concrete file list. -/
theorem list_model_files_conflation_witness :
    list_model_files none = Except.error 404 ∧
    list_model_files (some ["robot.xml"]) = Except.ok ["robot.xml"] :=
  ⟨list_model_files_conflates_empty_and_missing.1,
   list_model_files_conflates_empty_and_missing.2.2.2 ["robot.xml"] (by decide)⟩
